import Mathlib

/-
Shallow embedding of the analyze API route of the product-hunt-trending
repository (src/src/app/api/analyze/route.ts).  The POST handler there is a
single linear pipeline: environment-credential guard, request-body
destructuring, input validation, prompt construction, external model call,
markdown-fence cleanup, JSON decoding, a three-field contract check, and a
catch-all error classifier keyed on the thrown error message.

The embedding models the JavaScript semantics the handler relies on:
JSON.parse (as a fueled recursive-descent parser over characters),
String.prototype.trim and .replace with the global fence regex, substring
tests for error-message classification, truthiness of decoded values, and
member access throwing a TypeError on null.  The HTTP/transport layer and
the body-level JSON.parse performed by request.json() are outside the
claims and are represented by passing the already-decoded body value.
-/

/-- Decoded JavaScript JSON values, as produced by JSON.parse.  Numbers are
kept in exact decimal form, mantissa times ten to the exponent, which agrees
with IEEE doubles on truthiness (zero mantissa iff falsy) for all inputs the
claims touch. -/
inductive Json where
  | null
  | bool (b : Bool)
  | num (m : Int) (e : Int)
  | str (s : String)
  | arr (elems : List Json)
  | obj (fields : List (String × Json))

/-- JavaScript truthiness of a decoded JSON value. -/
def jsTruthy : Json → Bool
  | Json.null => false
  | Json.bool b => b
  | Json.num m _ => m != 0
  | Json.str s => s != ""
  | Json.arr _ => true
  | Json.obj _ => true

/-- Truthiness of a possibly-undefined value (undefined is falsy). -/
def jsTruthyOpt : Option Json → Bool
  | none => false
  | some j => jsTruthy j

/-- Array.isArray on a possibly-undefined value. -/
def isArrOpt : Option Json → Bool
  | some (Json.arr _) => true
  | _ => false

/-- Object property lookup with JavaScript last-assignment-wins semantics
for duplicate keys, as JSON.parse produces. -/
def lookupLast : List (String × Json) → String → Option Json
  | [], _ => none
  | (k, v) :: rest, key =>
      match lookupLast rest key with
      | some r => some r
      | none => if k = key then some v else none

/-- Property access on a decoded value that is known not to be null:
objects yield their property (or undefined), every other non-null value
yields undefined. -/
def specGet : Json → String → Option Json
  | Json.obj kvs, key => lookupLast kvs key
  | _, _ => none

/-- Property access as JavaScript evaluates it: reading a property of null
throws a TypeError; all other values yield the property or undefined. -/
def jsGetField (j : Json) (key : String) : Except String (Option Json) :=
  match j with
  | Json.null =>
      Except.error ("Cannot read properties of null (reading \x27" ++ key ++ "\x27)")
  | _ => Except.ok (specGet j key)

/-- Whether the second list is a leading segment of the first position of
the text list, character by character. -/
def leadsWith : List Char → List Char → Bool
  | [], _ => true
  | _ :: _, [] => false
  | p :: ps, c :: cs => p == c && leadsWith ps cs

/-- Whether the pattern occurs contiguously anywhere in the text list. -/
def subAt : List Char → List Char → Bool
  | pat, [] => leadsWith pat []
  | pat, c :: cs => leadsWith pat (c :: cs) || subAt pat cs

/-- String.prototype.includes of JavaScript: substring containment. -/
def hasSub (t pat : String) : Bool := subAt pat.toList t.toList

/-- The whitespace set of String.prototype.trim in JavaScript: tab through
carriage return, space, no-break space, the Unicode space separators, the
line and paragraph separators, and the byte-order mark. -/
def jsWhite (c : Char) : Bool :=
  (0x09 ≤ c.toNat && c.toNat ≤ 0x0D) || c.toNat = 0x20 || c.toNat = 0xA0 ||
  c.toNat = 0x1680 || (0x2000 ≤ c.toNat && c.toNat ≤ 0x200A) ||
  c.toNat = 0x2028 || c.toNat = 0x2029 || c.toNat = 0x202F ||
  c.toNat = 0x205F || c.toNat = 0x3000 || c.toNat = 0xFEFF

/-- Remove leading and trailing JavaScript whitespace from a character list. -/
def trimChars (cs : List Char) : List Char :=
  ((cs.dropWhile jsWhite).reverse.dropWhile jsWhite).reverse

/-- String.prototype.trim of JavaScript. -/
def jsTrim (s : String) : String := String.mk (trimChars s.toList)

/-- String.prototype.length of JavaScript counts UTF-16 code units: code
points at or above 0x10000 count twice. -/
def utf16Len (s : String) : Nat :=
  s.toList.foldl (fun n c => n + (if 0x10000 ≤ c.toNat then 2 else 1)) 0

/-- One left-to-right pass of the global regex replace used by the route to
remove markdown fences.  At each position the regex alternation first tries
the literal backtick-backtick-backtick-json with an optional trailing
newline, then an optional newline followed by three backticks; a match is
deleted and scanning resumes after it, otherwise the character is kept. -/
def replFence : List Char → List Char
  | '`' :: '`' :: '`' :: 'j' :: 's' :: 'o' :: 'n' :: '\n' :: rest => replFence rest
  | '`' :: '`' :: '`' :: 'j' :: 's' :: 'o' :: 'n' :: rest => replFence rest
  | '\n' :: '`' :: '`' :: '`' :: rest => replFence rest
  | '`' :: '`' :: '`' :: rest => replFence rest
  | c :: cs => c :: replFence cs
  | [] => []

/-- The cleanup applied to the model reply before JSON decoding: the global
fence-removing replace followed by trim. -/
def jsClean (s : String) : String := String.mk (trimChars (replFence s.toList))

/-- Whether a character list starts with three backticks. -/
def tripleAt : List Char → Bool
  | '`' :: '`' :: '`' :: _ => true
  | _ => false

/-- Whether three consecutive backticks occur anywhere in the list. -/
def hasTriple : List Char → Bool
  | [] => false
  | c :: cs => tripleAt (c :: cs) || hasTriple cs

/-- Whether a string contains three consecutive backticks. -/
def hasTripleStr (s : String) : Bool := hasTriple s.toList

/-- JSON insignificant whitespace. -/
def jsonWs (c : Char) : Bool := c == ' ' || c == '\t' || c == '\n' || c == '\r'

/-- Drop leading JSON whitespace. -/
def skipWs : List Char → List Char
  | c :: cs => if jsonWs c then skipWs cs else c :: cs
  | [] => []

/-- Value of a hexadecimal digit. -/
def hexVal (c : Char) : Option Nat :=
  if '0' ≤ c ∧ c ≤ '9' then some (c.toNat - '0'.toNat)
  else if 'a' ≤ c ∧ c ≤ 'f' then some (c.toNat - 'a'.toNat + 10)
  else if 'A' ≤ c ∧ c ≤ 'F' then some (c.toNat - 'A'.toNat + 10)
  else none

/-- Value of four hexadecimal digits. -/
def hex4 (a b c d : Char) : Option Nat := do
  let x ← hexVal a
  let y ← hexVal b
  let z ← hexVal c
  let w ← hexVal d
  some (((x * 16 + y) * 16 + z) * 16 + w)

/-- Single-character JSON string escapes other than the unicode escape. -/
def escChar : Char → Option Char
  | '"' => some '"'
  | '\\' => some '\\'
  | '/' => some '/'
  | 'b' => some (Char.ofNat 0x08)
  | 'f' => some (Char.ofNat 0x0C)
  | 'n' => some '\n'
  | 'r' => some '\r'
  | 't' => some '\t'
  | _ => none

/-- Body of a JSON string after the opening quote: returns the decoded
characters and the remainder after the closing quote.  Surrogate pairs in
unicode escapes are combined as JSON.parse does; a lone surrogate, which a
Lean string cannot represent, is mapped to the replacement character. -/
def parseStrBody : Nat → List Char → Option (List Char × List Char)
  | 0, _ => none
  | _, [] => none
  | fuel + 1, c :: cs =>
    if c = '"' then some ([], cs)
    else if c = '\\' then
      match cs with
      | 'u' :: h1 :: h2 :: h3 :: h4 :: rest =>
        match hex4 h1 h2 h3 h4 with
        | none => none
        | some n =>
          if 0xD800 ≤ n ∧ n ≤ 0xDBFF then
            match rest with
            | '\\' :: 'u' :: g1 :: g2 :: g3 :: g4 :: rest2 =>
              match hex4 g1 g2 g3 g4 with
              | none => none
              | some n2 =>
                if 0xDC00 ≤ n2 ∧ n2 ≤ 0xDFFF then
                  match parseStrBody fuel rest2 with
                  | some (s, r) =>
                      some (Char.ofNat (0x10000 + (n - 0xD800) * 0x400 + (n2 - 0xDC00)) :: s, r)
                  | none => none
                else
                  match parseStrBody fuel rest with
                  | some (s, r) => some (Char.ofNat 0xFFFD :: s, r)
                  | none => none
            | _ =>
              match parseStrBody fuel rest with
              | some (s, r) => some (Char.ofNat 0xFFFD :: s, r)
              | none => none
          else if 0xDC00 ≤ n ∧ n ≤ 0xDFFF then
            match parseStrBody fuel rest with
            | some (s, r) => some (Char.ofNat 0xFFFD :: s, r)
            | none => none
          else
            match parseStrBody fuel rest with
            | some (s, r) => some (Char.ofNat n :: s, r)
            | none => none
      | e :: rest =>
        match escChar e with
        | some ec =>
          match parseStrBody fuel rest with
          | some (s, r) => some (ec :: s, r)
          | none => none
        | none => none
      | [] => none
    else if c.toNat < 0x20 then none
    else
      match parseStrBody fuel cs with
      | some (s, r) => some (c :: s, r)
      | none => none

/-- Run of decimal digits at the head of the list. -/
def takeDigits : List Char → (List Char × List Char)
  | c :: cs =>
      if '0' ≤ c ∧ c ≤ '9' then
        let p := takeDigits cs
        (c :: p.1, p.2)
      else ([], c :: cs)
  | [] => ([], [])

/-- Numeric value of a digit run. -/
def digitsVal (ds : List Char) : Nat :=
  ds.foldl (fun n c => n * 10 + (c.toNat - '0'.toNat)) 0

/-- Build the exact decimal number value. -/
def mkNum (neg : Bool) (m : Nat) (e : Int) : Json :=
  Json.num (if neg then -(m : Int) else (m : Int)) e

/-- Exponent part of a JSON number, after mantissa and fraction. -/
def afterFrac (neg : Bool) (m : Nat) (fracLen : Nat) (r : List Char) :
    Option (Json × List Char) :=
  match r with
  | c :: r1 =>
    if c = 'e' ∨ c = 'E' then
      let p : Int × List Char :=
        match r1 with
        | '+' :: q => (1, q)
        | '-' :: q => (-1, q)
        | _ => (1, r1)
      match takeDigits p.2 with
      | ([], _) => none
      | (ds, r3) => some (mkNum neg m (p.1 * (digitsVal ds : Int) - (fracLen : Int)), r3)
    else some (mkNum neg m (-(fracLen : Int)), c :: r1)
  | [] => some (mkNum neg m (-(fracLen : Int)), [])

/-- Fraction part of a JSON number, after the integer part. -/
def afterInt (neg : Bool) (m : Nat) (r : List Char) : Option (Json × List Char) :=
  match r with
  | '.' :: r1 =>
    match takeDigits r1 with
    | ([], _) => none
    | (ds, r2) => afterFrac neg (m * 10 ^ ds.length + digitsVal ds) ds.length r2
  | _ => afterFrac neg m 0 r

/-- A JSON number literal at the head of the list, per the JSON grammar:
optional minus, an integer part with no superfluous leading zero, optional
fraction, optional exponent. -/
def parseNum (cs : List Char) : Option (Json × List Char) :=
  let p : Bool × List Char :=
    match cs with
    | '-' :: r => (true, r)
    | _ => (false, cs)
  match p.2 with
  | '0' :: r => afterInt p.1 0 r
  | c :: r =>
      if '1' ≤ c ∧ c ≤ '9' then
        let q := takeDigits r
        afterInt p.1 (digitsVal (c :: q.1)) q.2
      else none
  | [] => none

mutual

/-- A JSON value at the head of the list, after optional whitespace. -/
def parseVal : Nat → List Char → Option (Json × List Char)
  | 0, _ => none
  | fuel + 1, cs =>
    match skipWs cs with
    | 'n' :: 'u' :: 'l' :: 'l' :: r => some (Json.null, r)
    | 't' :: 'r' :: 'u' :: 'e' :: r => some (Json.bool true, r)
    | 'f' :: 'a' :: 'l' :: 's' :: 'e' :: r => some (Json.bool false, r)
    | '"' :: r =>
      match parseStrBody fuel r with
      | some (s, r2) => some (Json.str (String.mk s), r2)
      | none => none
    | '[' :: r =>
      (match skipWs r with
       | ']' :: r2 => some (Json.arr [], r2)
       | r1 =>
         match parseItems fuel r1 with
         | some (xs, r2) => some (Json.arr xs, r2)
         | none => none)
    | '{' :: r =>
      (match skipWs r with
       | '}' :: r2 => some (Json.obj [], r2)
       | r1 =>
         match parseMembers fuel r1 with
         | some (kvs, r2) => some (Json.obj kvs, r2)
         | none => none)
    | rest => parseNum rest

/-- One or more comma-separated array elements up to the closing bracket. -/
def parseItems : Nat → List Char → Option (List Json × List Char)
  | 0, _ => none
  | fuel + 1, cs =>
    match parseVal fuel cs with
    | none => none
    | some (v, r) =>
      match skipWs r with
      | ',' :: r2 =>
        match parseItems fuel r2 with
        | some (xs, r3) => some (v :: xs, r3)
        | none => none
      | ']' :: r2 => some ([v], r2)
      | _ => none

/-- One or more comma-separated object members up to the closing brace. -/
def parseMembers : Nat → List Char → Option (List (String × Json) × List Char)
  | 0, _ => none
  | fuel + 1, cs =>
    match skipWs cs with
    | '"' :: r =>
      match parseStrBody fuel r with
      | none => none
      | some (k, r1) =>
        match skipWs r1 with
        | ':' :: r2 =>
          match parseVal fuel r2 with
          | none => none
          | some (v, r3) =>
            match skipWs r3 with
            | ',' :: r4 =>
              match parseMembers fuel r4 with
              | some (kvs, r5) => some ((String.mk k, v) :: kvs, r5)
              | none => none
            | '}' :: r4 => some ([(String.mk k, v)], r4)
            | _ => none
        | _ => none
    | _ => none

end

/-- JSON.parse of JavaScript on a whole string: decode one value and require
that only whitespace remains.  The fuel is generous for the input length, so
it never runs out on inputs the grammar accepts. -/
def parseJsonTop (s : String) : Option Json :=
  let cs := s.toList
  match parseVal (2 * cs.length + 8) cs with
  | some (j, r) => if skipWs r = [] then some j else none
  | none => none

/-- Outcomes of the POST handler, one per distinct response the route can
produce.  In terms of the specification taxonomy: configMissingKey and
authError are the ConfigurationError outcomes, invalidInput and
inputTooShort the ValidationError outcomes, parseFailure is
MalformedResponse, invalidStructure is ContractViolation, rateLimited is
RateLimited, and unexpectedError is the catch-all UpstreamError. -/
inductive Outcome where
  | ok (analysis : Json)
  | configMissingKey
  | invalidInput
  | inputTooShort
  | parseFailure
  | invalidStructure
  | rateLimited
  | authError
  | unexpectedError

/-- Whether an outcome is a ConfigurationError of the specification. -/
def isConfigOutcome : Outcome → Bool
  | Outcome.configMissingKey => true
  | Outcome.authError => true
  | _ => false

/-- One content block of the model reply, as the SDK delivers it: a text
block carrying its text, or a block of any other type. -/
inductive ContentBlock where
  | text (t : String)
  | other

/-- The model reply message: its list of content blocks. -/
structure AnthMessage where
  content : List ContentBlock

/-- Construction-time client configuration: the credential and the optional
endpoint override, both read from the environment when the module loads. -/
structure CtorConfig where
  apiKey : String
  baseURL : Option String

/-- The request handed to the external model: model identifier, output
budget, and the single user message. -/
structure ModelRequest where
  model : String
  maxTokens : Nat
  prompt : String

/-- The fixed request parameters of the route: model identifier and
max_tokens as written in the source, with the built prompt. -/
def mkRequest (p : String) : ModelRequest :=
  ⟨"claude-sonnet-4-5-20250929", 2048, p⟩

/-- Text of the instruction template before the interpolated input. -/
def promptHead : String :=
  "Analyze this Product Hunt product or description and provide a structured trend analysis:\n\n"

/-- Text of the instruction template after the interpolated input: the
required JSON shape with its eight fields and the no-markdown instruction. -/
def promptTail : String :=
  "\n\nPlease respond with a JSON object (no markdown formatting) with these exact fields:\n\x7b\n  \"productName\": \"Extract product name or \x27Unknown Product\x27 if not found\",\n  \"oneLineSummary\": \"One sentence summary of what this product does\",\n  \"marketPositioning\": \"2-3 sentences on how this product positions itself in the market\",\n  \"targetAudience\": \"Who is this product for? Be specific about demographics, use cases, or industries\",\n  \"keyDifferentiators\": [\"array\", \"of\", \"3-5 unique features or competitive advantages\"],\n  \"trendAnalysis\": \"How this aligns with current market trends, emerging opportunities, or timing factors\",\n  \"growthPotential\": \"Assessment of market opportunity, scalability, and adoption potential with reasoning\",\n  \"recommendations\": [\"2-4 actionable\", \"suggestions for improvement\", \"or go-to-market strategies\"]\n\x7d\n\nFocus on actionable insights, market fit, and strategic value. Be specific and evidence-based when possible."

/-- The prompt builder: the template literal of the route, which embeds the
input between the fixed head and tail. -/
def buildPrompt (input : String) : String :=
  promptHead ++ input ++ promptTail

/-- The catch-block classifier of the route, applied to the message of a
thrown Error: a message containing the rate indicator maps to the 429
response, otherwise one containing the API-key indicator maps to the
authentication response, otherwise the generic 500 response. -/
def classifyError (m : String) : Outcome :=
  if hasSub m "rate" then Outcome.rateLimited
  else if hasSub m "API key" then Outcome.authError
  else Outcome.unexpectedError

/-- The destructuring of the parsed request body: reading the input
property.  Destructuring null throws a TypeError; destructuring any other
value yields its input property, or undefined when there is none. -/
def destructInput (body : Json) : Except String (Option Json) :=
  match body with
  | Json.null =>
      Except.error "Cannot destructure property \x27input\x27 of \x27body\x27 as it is null."
  | Json.obj kvs => Except.ok (lookupLast kvs "input")
  | _ => Except.ok none

/-- Extraction of the reply text: the route reads content[0].type, which
throws a TypeError when the content list is empty, yields the text of a
text block, and the empty string for any other block type. -/
def extractText (m : AnthMessage) : Except String String :=
  match m.content with
  | [] => Except.error "Cannot read properties of undefined (reading \x27type\x27)"
  | ContentBlock.text t :: _ => Except.ok t
  | ContentBlock.other :: _ => Except.ok ""

/-- The condition of the structure check of the route, read off the decoded
value without evaluating member accesses: productName falsy, or
oneLineSummary falsy, or keyDifferentiators not an array. -/
def specContractFails (j : Json) : Bool :=
  !(jsTruthyOpt (specGet j "productName")) ||
  !(jsTruthyOpt (specGet j "oneLineSummary")) ||
  !(isArrOpt (specGet j "keyDifferentiators"))

/-- The structure check as the route evaluates it, member access by member
access with JavaScript short-circuiting; accessing a property of a decoded
null throws.  Returns the value of the failure condition. -/
def contractCheckJs (j : Json) : Except String Bool :=
  match jsGetField j "productName" with
  | Except.error m => Except.error m
  | Except.ok p =>
    if !(jsTruthyOpt p) then Except.ok true
    else
      match jsGetField j "oneLineSummary" with
      | Except.error m => Except.error m
      | Except.ok o =>
        if !(jsTruthyOpt o) then Except.ok true
        else
          match jsGetField j "keyDifferentiators" with
          | Except.error m => Except.error m
          | Except.ok kd => Except.ok (!(isArrOpt kd))

/-- Processing of a successfully returned model message: extract the reply
text, clean and decode it, run the structure check, and return either the
decoded analysis or the matching failure outcome.  Thrown property-access
errors reach the catch-block classifier. -/
def handleMessage (msg : AnthMessage) : Outcome :=
  match extractText msg with
  | Except.error m => classifyError m
  | Except.ok t =>
    match parseJsonTop (jsClean t) with
    | none => Outcome.parseFailure
    | some j =>
      match contractCheckJs j with
      | Except.error m => classifyError m
      | Except.ok fails => if fails then Outcome.invalidStructure else Outcome.ok j

/-- The handler after the credential guard.  The oracle stands for the
external model call: it receives the construction-time client configuration
and the request, and either returns a message or throws an error with the
given message string.  The Boolean records whether the oracle was invoked. -/
def analyzeBody (cfg : CtorConfig)
    (oracle : CtorConfig → ModelRequest → Except String AnthMessage)
    (body : Json) : Outcome × Bool :=
  match destructInput body with
  | Except.error m => (classifyError m, false)
  | Except.ok inp =>
    match inp with
    | some (Json.str s) =>
      if s = "" then (Outcome.invalidInput, false)
      else if utf16Len (jsTrim s) < 50 then (Outcome.inputTooShort, false)
      else
        match oracle cfg (mkRequest (buildPrompt s)) with
        | Except.error m => (classifyError m, true)
        | Except.ok msg => (handleMessage msg, true)
    | _ => (Outcome.invalidInput, false)

/-- The POST handler.  The request-time environment credential is checked
for truthiness before anything else; the rest of the pipeline uses only the
construction-time configuration, the parsed body, and the oracle. -/
def analyze (cfg : CtorConfig) (reqEnvKey : String)
    (oracle : CtorConfig → ModelRequest → Except String AnthMessage)
    (body : Json) : Outcome × Bool :=
  if reqEnvKey = "" then (Outcome.configMissingKey, false)
  else analyzeBody cfg oracle body

/-- Fixed construction-time configuration used by the concrete witnesses. -/
def cfgW : CtorConfig := ⟨"key", none⟩

/-- A valid request input: 55 characters, well above the 50-character bound. -/
def inputW : String := "A tool that helps founders validate startup ideas fast."

/-- A request body carrying the valid input. -/
def bodyW : Json := Json.obj [("input", Json.str inputW)]

/-- A model reply that decodes and satisfies the structure check while
carrying only the three checked fields. -/
def replyW : String :=
  "\x7b\"productName\":\"X\",\"oneLineSummary\":\"Y\",\"keyDifferentiators\":[]\x7d"

/-- The decoded value of replyW. -/
def analysisW : Json :=
  Json.obj [("productName", Json.str "X"), ("oneLineSummary", Json.str "Y"),
    ("keyDifferentiators", Json.arr [])]

/-- An oracle returning a single text block with the given reply. -/
def okOracleW (t : String) : CtorConfig → ModelRequest → Except String AnthMessage :=
  fun _ _ => Except.ok ⟨[ContentBlock.text t]⟩

/-- An oracle returning a message with no content blocks; the witnesses that
never reach the model call use it. -/
def emptyOracleW : CtorConfig → ModelRequest → Except String AnthMessage :=
  fun _ _ => Except.ok ⟨[]⟩

/-- On every value other than a decoded null, the structure check evaluates
without throwing, to the value of the failure condition. -/
theorem contractCheckJs_eq (j : Json) (h : j ≠ Json.null) :
    contractCheckJs j = Except.ok (specContractFails j) := by
  cases j with
  | null => exact absurd rfl h
  | bool b =>
      simp only [contractCheckJs, jsGetField, specContractFails]
      cases h1 : jsTruthyOpt (specGet (Json.bool b) "productName") <;>
        cases h2 : jsTruthyOpt (specGet (Json.bool b) "oneLineSummary") <;>
          simp [h1, h2]
  | num m e =>
      simp only [contractCheckJs, jsGetField, specContractFails]
      cases h1 : jsTruthyOpt (specGet (Json.num m e) "productName") <;>
        cases h2 : jsTruthyOpt (specGet (Json.num m e) "oneLineSummary") <;>
          simp [h1, h2]
  | str s =>
      simp only [contractCheckJs, jsGetField, specContractFails]
      cases h1 : jsTruthyOpt (specGet (Json.str s) "productName") <;>
        cases h2 : jsTruthyOpt (specGet (Json.str s) "oneLineSummary") <;>
          simp [h1, h2]
  | arr xs =>
      simp only [contractCheckJs, jsGetField, specContractFails]
      cases h1 : jsTruthyOpt (specGet (Json.arr xs) "productName") <;>
        cases h2 : jsTruthyOpt (specGet (Json.arr xs) "oneLineSummary") <;>
          simp [h1, h2]
  | obj kvs =>
      simp only [contractCheckJs, jsGetField, specContractFails]
      cases h1 : jsTruthyOpt (specGet (Json.obj kvs) "productName") <;>
        cases h2 : jsTruthyOpt (specGet (Json.obj kvs) "oneLineSummary") <;>
          simp [h1, h2]

/-- A list without three consecutive backticks keeps that property when its
head is removed. -/
theorem hasTriple_tail (c : Char) (cs : List Char) (h : hasTriple (c :: cs) = false) :
    hasTriple cs = false := by
  simp only [hasTriple, Bool.or_eq_false_iff] at h
  exact h.2

/-- The fence-removing replace leaves any list without three consecutive
backticks unchanged: every alternative of the regex contains the triple
backtick. -/
theorem replFence_id (cs : List Char) (h : hasTriple cs = false) : replFence cs = cs := by
  induction cs using replFence.induct with
  | case1 rest => simp [hasTriple, tripleAt] at h
  | case2 rest => simp [hasTriple, tripleAt] at h
  | case3 rest => simp [hasTriple, tripleAt] at h
  | case4 rest => simp [hasTriple, tripleAt] at h
  | case5 c cs n1 n2 n3 n4 ih =>
      rw [replFence]
      any_goals assumption
      rw [ih (hasTriple_tail c cs h)]
  | case6 => rfl

/-- The step after a successful decode never produces a configuration
outcome, whatever the decoded value. -/
theorem isConfig_contract (j : Json) :
    isConfigOutcome (match contractCheckJs j with
      | Except.error m => classifyError m
      | Except.ok fails => if fails then Outcome.invalidStructure else Outcome.ok j) = false := by
  cases j with
  | null => rfl
  | bool b =>
      rw [contractCheckJs_eq (Json.bool b) (fun h => nomatch h)]
      cases hb : specContractFails (Json.bool b) <;> simp [hb, isConfigOutcome]
  | num m e =>
      rw [contractCheckJs_eq (Json.num m e) (fun h => nomatch h)]
      cases hb : specContractFails (Json.num m e) <;> simp [hb, isConfigOutcome]
  | str s =>
      rw [contractCheckJs_eq (Json.str s) (fun h => nomatch h)]
      cases hb : specContractFails (Json.str s) <;> simp [hb, isConfigOutcome]
  | arr xs =>
      rw [contractCheckJs_eq (Json.arr xs) (fun h => nomatch h)]
      cases hb : specContractFails (Json.arr xs) <;> simp [hb, isConfigOutcome]
  | obj kvs =>
      rw [contractCheckJs_eq (Json.obj kvs) (fun h => nomatch h)]
      cases hb : specContractFails (Json.obj kvs) <;> simp [hb, isConfigOutcome]

/-- Processing a returned model message never produces a configuration
outcome: every thrown property-access message the route can produce there
contains neither the rate indicator nor the API-key indicator. -/
theorem handleMessage_not_config (msg : AnthMessage) :
    isConfigOutcome (handleMessage msg) = false := by
  rcases msg with ⟨content⟩
  cases content with
  | nil => rfl
  | cons b rest =>
    cases b with
    | other => rfl
    | text t =>
      have hm : handleMessage ⟨ContentBlock.text t :: rest⟩ =
          match parseJsonTop (jsClean t) with
          | none => Outcome.parseFailure
          | some j =>
            match contractCheckJs j with
            | Except.error m => classifyError m
            | Except.ok fails => if fails then Outcome.invalidStructure else Outcome.ok j := by
        simp [handleMessage, extractText]
      rw [hm]
      cases hp : parseJsonTop (jsClean t) with
      | none => rfl
      | some j => exact isConfig_contract j

/-- C1 (amended): for every model message whose text extraction succeeds and
whose cleaned text decodes to a value other than null, the contract step
returns ContractViolation exactly when the decoded value fails the minimal
field contract, read with JavaScript truthiness.  A decoded null, excluded
here, instead makes the property read throw; see the counterexample. -/
theorem contract_violation_iff (msg : AnthMessage) (t : String) (j : Json)
    (he : extractText msg = Except.ok t)
    (hp : parseJsonTop (jsClean t) = some j) (hj : j ≠ Json.null) :
    handleMessage msg = Outcome.invalidStructure ↔ specContractFails j = true := by
  unfold handleMessage
  rw [he]
  simp only [hp, contractCheckJs_eq j hj]
  cases hb : specContractFails j <;> simp [hb]

/-- C1 witness: a decoded reply whose productName is the empty string but is
otherwise well-formed satisfies the hypotheses, and the contract step yields
ContractViolation on it. -/
theorem contract_violation_iff_witness :
    extractText ⟨[ContentBlock.text "\x7b\"productName\":\"\",\"oneLineSummary\":\"Y\",\"keyDifferentiators\":[]\x7d"]⟩ =
      Except.ok "\x7b\"productName\":\"\",\"oneLineSummary\":\"Y\",\"keyDifferentiators\":[]\x7d" ∧
    parseJsonTop (jsClean "\x7b\"productName\":\"\",\"oneLineSummary\":\"Y\",\"keyDifferentiators\":[]\x7d") =
      some (Json.obj [("productName", Json.str ""), ("oneLineSummary", Json.str "Y"),
        ("keyDifferentiators", Json.arr [])]) ∧
    specContractFails (Json.obj [("productName", Json.str ""), ("oneLineSummary", Json.str "Y"),
        ("keyDifferentiators", Json.arr [])]) = true ∧
    (handleMessage ⟨[ContentBlock.text "\x7b\"productName\":\"\",\"oneLineSummary\":\"Y\",\"keyDifferentiators\":[]\x7d"]⟩ =
        Outcome.invalidStructure ↔
      specContractFails (Json.obj [("productName", Json.str ""), ("oneLineSummary", Json.str "Y"),
        ("keyDifferentiators", Json.arr [])]) = true) :=
  ⟨rfl, rfl, rfl, contract_violation_iff _ _ _ rfl rfl (fun h => nomatch h)⟩

/-- C1 counterexample: the reply text null decodes successfully to the null
value, which fails the minimal field contract, yet the route returns the
generic unexpected-error outcome, not ContractViolation: the property read
on null throws and the catch block classifies the TypeError message. -/
theorem contract_violation_null_cx :
    parseJsonTop (jsClean "null") = some Json.null ∧
    specContractFails Json.null = true ∧
    handleMessage ⟨[ContentBlock.text "null"]⟩ = Outcome.unexpectedError ∧
    Outcome.unexpectedError ≠ Outcome.invalidStructure :=
  ⟨rfl, rfl, rfl, fun h => nomatch h⟩

/-- C2 (confirmed): under a present credential and a valid input, when the
reply text decodes to a value passing the structure check, Analyze returns
exactly the decoded value, untransformed, with no further field checks. -/
theorem analyze_identity_pass (cfg : CtorConfig) (k s t : String) (j : Json)
    (hk : k ≠ "") (hs : s ≠ "") (hlen : ¬ utf16Len (jsTrim s) < 50)
    (hp : parseJsonTop (jsClean t) = some j)
    (hc : contractCheckJs j = Except.ok false) :
    analyze cfg k (fun _ _ => Except.ok ⟨[ContentBlock.text t]⟩)
      (Json.obj [("input", Json.str s)]) = (Outcome.ok j, true) := by
  simp [analyze, hk, analyzeBody, destructInput, lookupLast, hs, hlen,
    handleMessage, extractText, hp, hc]

/-- C2 witness: a reply carrying only the three checked fields passes and is
returned as-is, even though marketPositioning and recommendations are
absent from it. -/
theorem analyze_identity_pass_witness :
    parseJsonTop (jsClean replyW) = some analysisW ∧
    contractCheckJs analysisW = Except.ok false ∧
    specGet analysisW "marketPositioning" = none ∧
    specGet analysisW "recommendations" = none ∧
    analyze cfgW "key" (okOracleW replyW) bodyW = (Outcome.ok analysisW, true) :=
  ⟨rfl, rfl, rfl, rfl,
    analyze_identity_pass cfgW "key" inputW replyW analysisW
      (by decide) (by decide) (by decide) rfl rfl⟩

/-- C3 (amended): under a present credential, a destructured input that is
absent, non-textual, or the empty string yields the wrong-type
ValidationError without invoking the model, and a nonempty textual input of
trimmed length below 50 yields the too-short ValidationError without
invoking the model.  The empty string, though textual, is falsy and takes
the wrong-type branch; see the counterexample. -/
theorem analyze_validation (cfg : CtorConfig) (k : String)
    (oracle : CtorConfig → ModelRequest → Except String AnthMessage)
    (body : Json) (inp : Option Json)
    (hk : k ≠ "") (hd : destructInput body = Except.ok inp) :
    ((∀ s, inp = some (Json.str s) → s = "") →
        analyze cfg k oracle body = (Outcome.invalidInput, false)) ∧
    (∀ s, inp = some (Json.str s) → s ≠ "" → utf16Len (jsTrim s) < 50 →
        analyze cfg k oracle body = (Outcome.inputTooShort, false)) := by
  have ha : analyze cfg k oracle body = analyzeBody cfg oracle body := by
    simp [analyze, hk]
  constructor
  · intro hns
    rw [ha]
    unfold analyzeBody
    rw [hd]
    rcases inp with _ | j
    · rfl
    · cases j with
      | str s =>
          have hs0 : s = "" := hns s rfl
          subst hs0
          simp
      | null => rfl
      | bool b => rfl
      | num m e => rfl
      | arr xs => rfl
      | obj kvs => rfl
  · intro s hinp hs hlen
    subst hinp
    rw [ha]
    unfold analyzeBody
    rw [hd]
    simp [hs, hlen]

/-- C3 witness: a body without an input field yields the wrong-type
ValidationError, and a 5-character input yields the too-short
ValidationError; in both runs the oracle is not invoked. -/
theorem analyze_validation_witness :
    ("key" : String) ≠ "" ∧
    destructInput (Json.obj []) = Except.ok none ∧
    destructInput (Json.obj [("input", Json.str "short")]) =
      Except.ok (some (Json.str "short")) ∧
    utf16Len (jsTrim "short") < 50 ∧
    analyze cfgW "key" emptyOracleW (Json.obj []) = (Outcome.invalidInput, false) ∧
    analyze cfgW "key" emptyOracleW (Json.obj [("input", Json.str "short")]) =
      (Outcome.inputTooShort, false) :=
  ⟨by decide, rfl, rfl, by decide,
    (analyze_validation cfgW "key" emptyOracleW (Json.obj []) none
      (by decide) rfl).1 (fun s h => nomatch h),
    (analyze_validation cfgW "key" emptyOracleW (Json.obj [("input", Json.str "short")])
      (some (Json.str "short")) (by decide) rfl).2 "short" rfl (by decide) (by decide)⟩

/-- C3 counterexample: the empty string is a textual input whose trimmed
length is below 50, yet Analyze reports the wrong-type ValidationError, not
the too-short one: the falsiness test fires before the type test. -/
theorem analyze_validation_empty_cx :
    analyze cfgW "key" emptyOracleW (Json.obj [("input", Json.str "")]) =
      (Outcome.invalidInput, false) ∧
    utf16Len (jsTrim "") < 50 ∧
    Outcome.invalidInput ≠ Outcome.inputTooShort :=
  ⟨rfl, by decide, fun h => nomatch h⟩

/-- C4 (confirmed): under a present credential and a valid input, every
reply whose cleaned text fails to decode makes Analyze return
MalformedResponse; the pipeline returns it directly, with no retry. -/
theorem analyze_malformed (cfg : CtorConfig) (k s t : String)
    (hk : k ≠ "") (hs : s ≠ "") (hlen : ¬ utf16Len (jsTrim s) < 50)
    (hp : parseJsonTop (jsClean t) = none) :
    analyze cfg k (fun _ _ => Except.ok ⟨[ContentBlock.text t]⟩)
      (Json.obj [("input", Json.str s)]) = (Outcome.parseFailure, true) := by
  simp [analyze, hk, analyzeBody, destructInput, lookupLast, hs, hlen,
    handleMessage, extractText, hp]

/-- C4 witness: the literal reply text not json fails to decode and the full
pipeline returns MalformedResponse on it. -/
theorem analyze_malformed_witness :
    parseJsonTop (jsClean "not json") = none ∧
    analyze cfgW "key" (fun _ _ => Except.ok ⟨[ContentBlock.text "not json"]⟩) bodyW =
      (Outcome.parseFailure, true) :=
  ⟨rfl, analyze_malformed cfgW "key" inputW "not json"
    (by decide) (by decide) (by decide) rfl⟩

/-- C5 (confirmed): the exact fence-wrapped reply of the specification is
stripped and decoded to the inner object, and the message pipeline returns
that object. -/
theorem fence_roundtrip :
    parseJsonTop (jsClean "```json\n\x7b\"productName\":\"X\",\"oneLineSummary\":\"Y\",\"keyDifferentiators\":[]\x7d\n```") =
      some (Json.obj [("productName", Json.str "X"), ("oneLineSummary", Json.str "Y"),
        ("keyDifferentiators", Json.arr [])]) ∧
    handleMessage ⟨[ContentBlock.text "```json\n\x7b\"productName\":\"X\",\"oneLineSummary\":\"Y\",\"keyDifferentiators\":[]\x7d\n```"]⟩ =
      Outcome.ok (Json.obj [("productName", Json.str "X"), ("oneLineSummary", Json.str "Y"),
        ("keyDifferentiators", Json.arr [])]) :=
  ⟨rfl, rfl⟩

/-- C6 (amended): the cleanup removes every occurrence of the fence
patterns anywhere in the text, not only surrounding ones; on any text with
no three consecutive backticks anywhere, it coincides with plain trimming. -/
theorem clean_only_trims (t : String) (h : hasTripleStr t = false) :
    jsClean t = jsTrim t := by
  unfold jsClean jsTrim
  rw [replFence_id t.toList h]

/-- C6 witness: a fence-free text is only trimmed by the cleanup. -/
theorem clean_only_trims_witness :
    hasTripleStr "  \x7b\"a\": 1\x7d " = false ∧
    jsClean "  \x7b\"a\": 1\x7d " = jsTrim "  \x7b\"a\": 1\x7d " :=
  ⟨rfl, clean_only_trims "  \x7b\"a\": 1\x7d " rfl⟩

/-- C6 counterexample: a text with three backticks strictly inside and no
surrounding fence markers is changed by the cleanup beyond trimming: the
global replace deletes the interior backticks. -/
theorem clean_global_cx :
    jsClean "abc```def" = "abcdef" ∧
    jsTrim "abc```def" = "abc```def" ∧
    ("abcdef" : String) ≠ "abc```def" :=
  ⟨rfl, rfl, by decide⟩

/-- C7 (amended): with a valid input and a fixed oracle reply, Analyze
yields a ConfigurationError outcome exactly when the request-time credential
is empty — in which case it returns immediately with the oracle not invoked
— or the model call throws an error whose message carries the API-key
indicator and not the rate indicator.  The rate test runs first, so a
message carrying both yields RateLimited; see the counterexample. -/
theorem config_error_iff (cfg : CtorConfig) (k s : String)
    (r : Except String AnthMessage)
    (hs : s ≠ "") (hlen : ¬ utf16Len (jsTrim s) < 50) :
    (isConfigOutcome (analyze cfg k (fun _ _ => r) (Json.obj [("input", Json.str s)])).1 = true ↔
      (k = "" ∨ ∃ m, r = Except.error m ∧ hasSub m "API key" = true ∧ hasSub m "rate" = false)) ∧
    (k = "" → analyze cfg k (fun _ _ => r) (Json.obj [("input", Json.str s)]) =
      (Outcome.configMissingKey, false)) := by
  by_cases hk : k = ""
  · subst hk
    refine ⟨?_, fun _ => by simp [analyze]⟩
    simp [analyze, isConfigOutcome]
  · refine ⟨?_, fun h => absurd h hk⟩
    have ha : analyze cfg k (fun _ _ => r) (Json.obj [("input", Json.str s)]) =
        (match r with
         | Except.error m => (classifyError m, true)
         | Except.ok msg => (handleMessage msg, true)) := by
      simp [analyze, hk, analyzeBody, destructInput, lookupLast, hs, hlen]
    rw [ha]
    cases r with
    | error m =>
      simp only []
      constructor
      · intro h
        unfold classifyError at h
        by_cases hr : hasSub m "rate"
        · simp [hr, isConfigOutcome] at h
        · by_cases hak : hasSub m "API key"
          · exact Or.inr ⟨m, rfl, hak, by simpa using hr⟩
          · simp [hr, hak, isConfigOutcome] at h
      · rintro (h | ⟨m2, hm2, hak, hrt⟩)
        · exact absurd h hk
        · cases hm2
          unfold classifyError
          simp [hrt, hak, isConfigOutcome]
    | ok msg =>
      simp [handleMessage_not_config msg, hk]

/-- C7 witness: a thrown message carrying only the API-key indicator yields
a ConfigurationError outcome, and the empty request-time credential returns
the missing-key ConfigurationError with the oracle not invoked. -/
theorem config_error_iff_witness :
    (inputW ≠ "") ∧ (¬ utf16Len (jsTrim inputW) < 50) ∧
    (isConfigOutcome (analyze cfgW "key" (fun _ _ => Except.error "invalid API key")
        (Json.obj [("input", Json.str inputW)])).1 = true ↔
      (("key" : String) = "" ∨ ∃ m, (Except.error "invalid API key" :
          Except String AnthMessage) = Except.error m ∧
        hasSub m "API key" = true ∧ hasSub m "rate" = false)) ∧
    (("" : String) = "" → analyze cfgW "" (fun _ _ => Except.error "invalid API key")
        (Json.obj [("input", Json.str inputW)]) = (Outcome.configMissingKey, false)) :=
  ⟨by decide, by decide,
    (config_error_iff cfgW "key" inputW (Except.error "invalid API key")
      (by decide) (by decide)).1,
    (config_error_iff cfgW "" inputW (Except.error "invalid API key")
      (by decide) (by decide)).2⟩

/-- C7 counterexample: an error message carrying the authentication
indicator together with the rate indicator yields RateLimited, not a
ConfigurationError, because the rate test runs first. -/
theorem config_error_precedence_cx :
    hasSub "rate limit: invalid API key" "API key" = true ∧
    (analyze cfgW "key" (fun _ _ => Except.error "rate limit: invalid API key") bodyW).1 =
      Outcome.rateLimited ∧
    isConfigOutcome Outcome.rateLimited = false :=
  ⟨rfl, rfl, rfl⟩

/-- C8 (confirmed): when the model call throws, a message containing the
rate indicator yields RateLimited, and a message containing neither the
rate nor the API-key indicator yields the generic UpstreamError. -/
theorem error_message_classes (cfg : CtorConfig) (k s m : String)
    (hk : k ≠ "") (hs : s ≠ "") (hlen : ¬ utf16Len (jsTrim s) < 50) :
    (hasSub m "rate" = true →
      analyze cfg k (fun _ _ => Except.error m) (Json.obj [("input", Json.str s)]) =
        (Outcome.rateLimited, true)) ∧
    (hasSub m "rate" = false → hasSub m "API key" = false →
      analyze cfg k (fun _ _ => Except.error m) (Json.obj [("input", Json.str s)]) =
        (Outcome.unexpectedError, true)) := by
  constructor
  · intro hr
    simp [analyze, hk, analyzeBody, destructInput, lookupLast, hs, hlen,
      classifyError, hr]
  · intro hr hak
    simp [analyze, hk, analyzeBody, destructInput, lookupLast, hs, hlen,
      classifyError, hr, hak]

/-- C8 witness: a rate-limit message yields RateLimited and a message with
neither indicator yields the generic UpstreamError, on the full pipeline. -/
theorem error_message_classes_witness :
    hasSub "rate limit exceeded" "rate" = true ∧
    hasSub "connection reset by peer" "rate" = false ∧
    hasSub "connection reset by peer" "API key" = false ∧
    analyze cfgW "key" (fun _ _ => Except.error "rate limit exceeded") bodyW =
      (Outcome.rateLimited, true) ∧
    analyze cfgW "key" (fun _ _ => Except.error "connection reset by peer") bodyW =
      (Outcome.unexpectedError, true) :=
  ⟨rfl, rfl, rfl,
    (error_message_classes cfgW "key" inputW "rate limit exceeded"
      (by decide) (by decide) (by decide)).1 rfl,
    (error_message_classes cfgW "key" inputW "connection reset by peer"
      (by decide) (by decide) (by decide)).2 rfl rfl⟩

set_option maxRecDepth 8192 in
/-- C9 (confirmed): the prompt builder is a pure function that places the
original input verbatim between a fixed head and a fixed tail; the tail
spells out the literal JSON template with the eight required field names and
the no-markdown instruction. -/
theorem prompt_builder_spec (input : String) :
    buildPrompt input = promptHead ++ input ++ promptTail ∧
    hasSub promptTail "\"productName\"" = true ∧
    hasSub promptTail "\"oneLineSummary\"" = true ∧
    hasSub promptTail "\"marketPositioning\"" = true ∧
    hasSub promptTail "\"targetAudience\"" = true ∧
    hasSub promptTail "\"keyDifferentiators\"" = true ∧
    hasSub promptTail "\"trendAnalysis\"" = true ∧
    hasSub promptTail "\"growthPotential\"" = true ∧
    hasSub promptTail "\"recommendations\"" = true ∧
    hasSub promptTail "(no markdown formatting)" = true :=
  ⟨rfl, rfl, rfl, rfl, rfl, rfl, rfl, rfl, rfl, rfl⟩

/-- C10 (amended): the outcome of Analyze depends on the request-time
environment only through the presence of the credential: two runs whose
request-time credentials are both present or both absent agree on the same
construction-time configuration, body, and oracle.  The presence guard does
re-read the environment per request; see the counterexample. -/
theorem env_read_presence (cfg : CtorConfig) (k1 k2 : String)
    (oracle : CtorConfig → ModelRequest → Except String AnthMessage)
    (body : Json) (h : k1 = "" ↔ k2 = "") :
    analyze cfg k1 oracle body = analyze cfg k2 oracle body := by
  unfold analyze
  by_cases h1 : k1 = ""
  · rw [if_pos h1, if_pos (h.mp h1)]
  · rw [if_neg h1, if_neg (fun hh => h1 (h.mpr hh))]

/-- C10 witness: two distinct present request-time credentials give the same
outcome for the same construction-time configuration, body, and reply. -/
theorem env_read_presence_witness :
    (("keyA" : String) = "" ↔ ("keyB" : String) = "") ∧
    analyze cfgW "keyA" (okOracleW replyW) bodyW =
      analyze cfgW "keyB" (okOracleW replyW) bodyW :=
  ⟨by decide, env_read_presence cfgW "keyA" "keyB" (okOracleW replyW) bodyW (by decide)⟩

/-- C10 counterexample: two runs identical in construction-time
configuration, body, and model reply but differing in the request-time
environment produce different outcomes: the guard re-reads the credential on
each request. -/
theorem env_reread_cx :
    analyze cfgW "key" (okOracleW replyW) bodyW = (Outcome.ok analysisW, true) ∧
    analyze cfgW "" (okOracleW replyW) bodyW = (Outcome.configMissingKey, false) ∧
    Outcome.ok analysisW ≠ Outcome.configMissingKey :=
  ⟨rfl, rfl, fun h => nomatch h⟩
